import Mathlib

/-!
Verification development for the course generator of the DP Moto rhythm mode
(`scripts/generate_courses.py`).  The Python source is shallowly embedded:
times, weights and audio-signal values become exact rationals, Python `int`
becomes `ℤ`/`ℕ`, Python lists become `List`, Python sets of lanes become
duplicate-free `List ℤ`, and the float functions `math.sqrt` / `math.log2`
(rational-valued in IEEE arithmetic) are abstracted as parameters
`sqrtQ log2Q : ℚ → ℚ`.  Python's `random.Random(seed)` is modelled as a
deterministic seed-indexed stream `mt : ℕ → ℕ → ℚ` consumed by an index
counter, mirroring the Mersenne-Twister being a pure function of its seed.
-/

/-- Python `int(q)`: truncation toward zero. -/
def truncQ (q : ℚ) : ℤ :=
  if 0 ≤ q then ⌊q⌋ else ⌈q⌉

/-- Python `round(q)`: round half to even (banker's rounding). -/
def roundHalfEven (q : ℚ) : ℤ :=
  if q - ⌊q⌋ < 1/2 then ⌊q⌋
  else if q - ⌊q⌋ > 1/2 then ⌊q⌋ + 1
  else if ⌊q⌋ % 2 = 0 then ⌊q⌋ else ⌊q⌋ + 1

/-- Python `round(q, 3)`. -/
def round3 (q : ℚ) : ℚ :=
  (roundHalfEven (q * 1000) : ℚ) / 1000

/-- Python `round(q, 2)`. -/
def round2 (q : ℚ) : ℚ :=
  (roundHalfEven (q * 100) : ℚ) / 100

/-- Python `s.startswith(p)` on event-type strings. -/
def pyStartswith (s p : String) : Bool :=
  p.data.isPrefixOf s.data

/-- Python list slice `l[:k]` (`k` may be negative, counting from the end). -/
def pySliceTo (l : List α) (k : ℤ) : List α :=
  if 0 ≤ k then l.take k.toNat
  else l.take (l.length - (-k).toNat)

/-- Python `set.add` on a duplicate-free list. -/
def setInsert (x : ℤ) (s : List ℤ) : List ℤ :=
  if x ∈ s then s else s ++ [x]

/-- Python `set.discard` on a duplicate-free list. -/
def setDiscard (x : ℤ) (s : List ℤ) : List ℤ :=
  s.erase x

/-- `sample_at` from `generate_courses.py`: sample a uint8 array (raw 0–255
values) at a given time with linear interpolation, dividing by 255.
`i0 = int(idx)` truncates toward zero, exactly as in the source. -/
def sample_at (arr : List ℚ) (time_s resolution_ms : ℚ) : ℚ :=
  if arr = [] then 0
  else
    let idx := time_s * 1000 / resolution_ms
    let i0 := truncQ idx
    if i0 < 0 then arr.headI / 255
    else if (arr.length : ℤ) - 1 ≤ i0 then arr.getLastD 0 / 255
    else
      let frac := idx - (i0 : ℚ)
      (arr.getD i0.toNat 0 * (1 - frac) + arr.getD (i0.toNat + 1) 0 * frac) / 255

/-- The binary-search loop of `find_nearest_beat` (`while lo < hi`).  The
fuel argument only bounds the iteration count; each pass shrinks `hi − lo`
by at least one, so the initial fuel `beats.length` is never exhausted. -/
def fnbSearch (beats : List ℚ) (t : ℚ) : ℕ → ℕ → ℕ → ℕ
  | 0, lo, _ => lo
  | fuel + 1, lo, hi =>
    if lo < hi then
      let mid := (lo + hi) / 2
      if beats.getD mid 0 < t then fnbSearch beats t fuel (mid + 1) hi
      else fnbSearch beats t fuel lo mid
    else lo

/-- `find_nearest_beat` from `generate_courses.py`: distance from `t` to the
nearest beat timestamp, `999.0` when `beats` is empty. -/
def find_nearest_beat (beats : List ℚ) (t : ℚ) : ℚ :=
  if beats = [] then 999
  else
    let lo := fnbSearch beats t beats.length 0 (beats.length - 1)
    let best := |beats.getD lo 0 - t|
    if 0 < lo then min best |beats.getD (lo - 1) 0 - t| else best

/-- `CourseEvent` from `generate_courses.py`. -/
structure CourseEvent where
  t : ℚ
  lane : ℤ
  type : String
  lead : Option ℚ := none
deriving DecidableEq, Repr

/-- `DifficultyParams` from `generate_courses.py` (defaults of the dataclass). -/
structure DifficultyParams where
  beat_skip : ℕ := 2
  max_per_cluster : ℕ := 2
  crash_weight : ℚ := 35/100
  car_weight : ℚ := 30/100
  slow_weight : ℚ := 15/100
  pickup_ratio : ℚ := 25/100
  min_safe_lanes : ℤ := 2
  density : ℚ := 55/100
  curve_start : ℚ := 20/100
  energy_floor : ℚ := 12/100
  energy_influence : ℚ := 5/10
  wave_amplitude : ℕ := 3
  wave_period : ℕ := 12
  wave_noise : ℚ := 15/100
  cluster2_energy : ℚ := 65/100
  cluster3_energy : ℚ := 82/100
  cluster2_prob : ℚ := 45/100
  cluster3_prob : ℚ := 25/100
deriving DecidableEq, Repr

/-- The `'easy'` entry of `DIFFICULTY_PRESETS`. -/
def easyPreset : DifficultyParams :=
  { beat_skip := 4, max_per_cluster := 1,
    crash_weight := 25/100, car_weight := 20/100, slow_weight := 20/100,
    pickup_ratio := 35/100,
    min_safe_lanes := 3, density := 55/100, curve_start := 15/100,
    energy_floor := 18/100, energy_influence := 40/100,
    wave_amplitude := 3, wave_period := 10, wave_noise := 15/100 }

/-- The `'normal'` entry of `DIFFICULTY_PRESETS`. -/
def normalPreset : DifficultyParams :=
  { beat_skip := 2, max_per_cluster := 2,
    crash_weight := 35/100, car_weight := 30/100, slow_weight := 15/100,
    pickup_ratio := 25/100,
    min_safe_lanes := 2, density := 55/100, curve_start := 20/100,
    energy_floor := 12/100, energy_influence := 60/100,
    wave_amplitude := 3, wave_period := 14, wave_noise := 15/100,
    cluster2_energy := 65/100, cluster2_prob := 45/100 }

/-- The `'hard'` entry of `DIFFICULTY_PRESETS`. -/
def hardPreset : DifficultyParams :=
  { beat_skip := 1, max_per_cluster := 3,
    crash_weight := 45/100, car_weight := 30/100, slow_weight := 10/100,
    pickup_ratio := 12/100,
    min_safe_lanes := 1, density := 55/100, curve_start := 25/100,
    energy_floor := 8/100, energy_influence := 70/100,
    wave_amplitude := 3, wave_period := 16, wave_noise := 20/100,
    cluster2_energy := 55/100, cluster2_prob := 55/100,
    cluster3_energy := 75/100, cluster3_prob := 35/100 }

/-- Sort key used throughout: ascending event time (`key=lambda e: e.t`,
stable exactly like Python's sort because `List.insertionSort` with a
`≤`-relation keeps equal keys in input order). -/
def byT (a b : CourseEvent) : Prop := a.t ≤ b.t

instance : DecidableRel byT := fun a b => inferInstanceAs (Decidable (a.t ≤ b.t))

/-- Stable time-sort of an event list, Python `sorted(events, key=lambda x: x.t)`. -/
def sortByT (events : List CourseEvent) : List CourseEvent :=
  List.insertionSort byT events

/-- The grouping loop of `validate_paths`: events within 50 ms of the group's
first event collapse into one group; the group time starts at `-999.0`. -/
def groupLoop : List CourseEvent → ℚ → List CourseEvent → List (ℚ × List CourseEvent)
  | [], cgt, cur => if cur = [] then [] else [(cgt, cur)]
  | e :: rest, cgt, cur =>
    if |e.t - cgt| < 1/20 then groupLoop rest cgt (cur ++ [e])
    else (if cur = [] then [] else [(cgt, cur)]) ++ groupLoop rest e.t [e]

/-- Time groups of an event list, after the stable time-sort. -/
def timeGroups (events : List CourseEvent) : List (ℚ × List CourseEvent) :=
  groupLoop (sortByT events) (-999) []

/-- Blocked-lane set of a group: lanes of non-pickup events, in first-seen order. -/
def blockedLanesOf (group : List CourseEvent) : List ℤ :=
  group.foldl (fun s e => if pyStartswith e.type "pickup" then s else setInsert e.lane s) []

/-- The lanes `set(range(4))`. -/
def lanesAll : List ℤ := [0, 1, 2, 3]

/-- Safe-lane set: `set(range(4)) - blocked`. -/
def safeLanes (blocked : List ℤ) : List ℤ :=
  lanesAll.filter (fun l => decide (l ∉ blocked))

/-- Reachability test of `validate_paths`: some previous safe lane within
`max_lane_change` of some current safe lane. -/
def reachCheck (prevSafe currSafe : List ℤ) (maxChange : ℤ) : Bool :=
  prevSafe.any (fun p => currSafe.any (fun c => decide (|c - p| ≤ maxChange)))

/-- The safety cull loop of `validate_paths`
(`while safe_lanes < min_safe_lanes and obstacle_events`): pop the last
obstacle, discard its lane from the blocked set, count a cull.  The fuel
argument only bounds the iteration count; each pass pops one obstacle, so
the initial fuel `obstacles.length` is never exhausted. -/
def cullSafetyLoop (minSafe : ℤ) :
    ℕ → List CourseEvent → List ℤ → ℕ → List CourseEvent × List ℤ × ℕ
  | 0, obs, blocked, cull => (obs, blocked, cull)
  | fuel + 1, obs, blocked, cull =>
    if h : (4 : ℤ) - blocked.length < minSafe ∧ obs ≠ [] then
      cullSafetyLoop minSafe fuel obs.dropLast
        (setDiscard (obs.getLast h.2).lane blocked) (cull + 1)
    else (obs, blocked, cull)

/-- The reachability cull loop of `validate_paths`
(`while not reachable and obstacle_events`): pop the last obstacle, discard
its lane, re-test reachability. Entered only when unreachable.  The fuel
argument only bounds the iteration count; each pass pops one obstacle, so
the initial fuel `obstacles.length` is never exhausted. -/
def cullReachLoop (prevSafe : List ℤ) (maxChange : ℤ) :
    ℕ → List CourseEvent → List ℤ → ℕ → List CourseEvent × List ℤ × ℕ
  | 0, obs, blocked, cull => (obs, blocked, cull)
  | fuel + 1, obs, blocked, cull =>
    if h : obs ≠ [] then
      if reachCheck prevSafe (safeLanes (setDiscard (obs.getLast h).lane blocked)) maxChange then
        (obs.dropLast, setDiscard (obs.getLast h).lane blocked, cull + 1)
      else cullReachLoop prevSafe maxChange fuel obs.dropLast
        (setDiscard (obs.getLast h).lane blocked) (cull + 1)
    else (obs, blocked, cull)

/-- One group step of `validate_paths`: safety cull, then (when a previous
group exists) the reachability check against the previous group's original
events. Returns the surviving obstacles, the surviving pickups and the
number of culls. -/
def validateGroup (minSafe : ℤ) (prev : Option (ℚ × List CourseEvent))
    (gt : ℚ) (ges : List CourseEvent) : List CourseEvent × List CourseEvent × ℕ :=
  let pickups := ges.filter (fun e => pyStartswith e.type "pickup")
  let obstacles := ges.filter (fun e => !pyStartswith e.type "pickup")
  let blocked := blockedLanesOf ges
  let r1 := cullSafetyLoop minSafe obstacles.length obstacles blocked 0
  match prev with
  | none => (r1.1, pickups, r1.2.2)
  | some (pt, pes) =>
    let maxChange := truncQ ((gt - pt) / (3/10))
    let prevBlocked := blockedLanesOf pes
    let prevSafe := safeLanes prevBlocked
    if reachCheck prevSafe (safeLanes r1.2.1) maxChange then
      (r1.1, pickups, r1.2.2)
    else if r1.1 = [] then (r1.1, pickups, r1.2.2)
    else
      let r2 := cullReachLoop prevSafe maxChange r1.1.length r1.1 r1.2.1 r1.2.2
      (r2.1, pickups, r2.2.2)

/-- The per-group fold of `validate_paths`, threading the previous original
group (`time_groups[gi - 1]`). -/
def validateGroups (minSafe : ℤ) :
    Option (ℚ × List CourseEvent) → List (ℚ × List CourseEvent) →
    List CourseEvent × ℕ
  | _, [] => ([], 0)
  | prev, (gt, ges) :: rest =>
    let r := validateGroup minSafe prev gt ges
    let rr := validateGroups minSafe (some (gt, ges)) rest
    (r.1 ++ r.2.1 ++ rr.1, r.2.2 + rr.2)

/-- `validate_paths` from `generate_courses.py`: group by time, enforce the
minimum-safe-lane count and reachability by culling obstacles from the tail,
return the surviving events re-sorted by time together with the cull count. -/
def validate_paths (events : List CourseEvent) (params : DifficultyParams) :
    List CourseEvent × ℕ :=
  if events = [] then (events, 0)
  else
    let r := validateGroups params.min_safe_lanes none (timeGroups events)
    (sortByT r.1, r.2)

/-- Decidable ordering for the safety invariant checker. -/
def safetyInvariantHolds (minSafe : ℤ) (events : List CourseEvent) : Bool :=
  (timeGroups events).all (fun g => decide (minSafe ≤ 4 - (blockedLanesOf g.2).length))

/-- Reachability invariant over consecutive time groups of a list: some safe
lane of the later group within `int(dt / 0.3)` of some safe lane of the
earlier group. -/
def reachInvariantHolds (events : List CourseEvent) : Bool :=
  let gs := timeGroups events
  (gs.zip gs.tail).all (fun p =>
    reachCheck (safeLanes (blockedLanesOf p.1.2)) (safeLanes (blockedLanesOf p.2.2))
      (truncQ ((p.2.1 - p.1.1) / (3/10))))

/-- Model of `random.Random(seed)`: a deterministic stream of draws in `[0,1)`
indexed by a counter, the stream itself being a pure function of the seed
(as the Mersenne Twister is). -/
structure Rng where
  stream : ℕ → ℚ
  idx : ℕ

/-- `rng.random()`. -/
def Rng.next (r : Rng) : ℚ × Rng :=
  (r.stream r.idx, ⟨r.stream, r.idx + 1⟩)

/-- `rng.choice([-1, 1])`: one draw mapped to a sign. -/
def Rng.choicePM (r : Rng) : ℤ × Rng :=
  let p := r.next
  (if p.1 < 1/2 then -1 else 1, p.2)

/-- `rng.randint(a, b)`: one draw mapped into `a..b`. -/
def Rng.randint (r : Rng) (a b : ℤ) : ℤ × Rng :=
  let p := r.next
  (a + max 0 (min (b - a) ⌊p.1 * ((b : ℚ) - (a : ℚ) + 1)⌋), p.2)

/-- The beat-map document consumed by the generator (raw 0–255 signal values;
`sample_at` performs the ÷255 decoding exactly as the source does). -/
structure BeatMap where
  resolution_ms : ℚ
  duration_s : ℚ
  bpm : ℚ
  beats : List ℚ
  bass : List ℚ
  percussive : List ℚ
  harmonic : List ℚ
  energy : List ℚ
  spotify_track_id : Option String := none

/-- The wave bounce pattern `[0,1,2,3,3,2,1,0]`. -/
def BOUNCE : List ℤ := [0, 1, 2, 3, 3, 2, 1, 0]

/-- `wave_lane` from `generate_courses.py`. -/
def wave_lane (event_index : ℕ) (params : DifficultyParams) (r : Rng) : ℤ × Rng :=
  let base := BOUNCE.getD (event_index % BOUNCE.length) 0
  let p := r.next
  if p.1 < params.wave_noise then
    let q := p.2.choicePM
    (max 0 (min 3 (base + q.1)), q.2)
  else (max 0 (min 3 base), p.2)

/-- The weighted-random fallback of `pick_type`. -/
def pickTypeFallback (params : DifficultyParams) (r : Rng) : String × Rng :=
  let p := r.next
  let total_w := params.crash_weight + params.car_weight + params.slow_weight
  (if p.1 < params.crash_weight / total_w then "crash"
   else if p.1 < (params.crash_weight + params.car_weight) / total_w then "car"
   else "slow", p.2)

/-- `pick_type` from `generate_courses.py`. -/
def pick_type (bass_val perc_val harm_val : ℚ) (params : DifficultyParams)
    (r : Rng) (is_pickup : Bool) : String × Rng :=
  if is_pickup then
    let p := r.next
    (if p.1 > 3/10 then "pickup_ammo" else "pickup_shield", p.2)
  else
    let dominant := max bass_val (max perc_val (harm_val * (1/2)))
    if dominant = bass_val ∧ bass_val > 3/10 then
      let p := r.next
      if p.1 < 55/100 then ("crash", p.2) else pickTypeFallback params p.2
    else if dominant = perc_val ∧ perc_val > 3/10 then
      let p := r.next
      if p.1 < 45/100 then ("car", p.2) else pickTypeFallback params p.2
    else pickTypeFallback params r

/-- Step 1 of `generate_events`: candidate beats inside the playable window
whose index is a multiple of `beat_skip`. -/
def candidateBeats (bd : BeatMap) (params : DifficultyParams) : List ℚ :=
  bd.beats.enum.filterMap (fun ib =>
    if ib.2 < 4 ∨ ib.2 > bd.duration_s - 2 then none
    else if ib.1 % params.beat_skip ≠ 0 then none
    else some ib.2)

/-- Per-section midpoint energies (`section_energies` in `generate_events`). -/
def sectionEnergies (bd : BeatMap) : List ℚ :=
  (List.range 8).map (fun s =>
    let sd := (bd.duration_s - 2 - 4) / 8
    sample_at bd.energy (4 + (s : ℚ) * sd + sd / 2) bd.resolution_ms)

/-- The `energy_scale` factor of section `s`
(`0.7 + 0.6 * (section_energies[s] / max(0.01, avg_section_energy * 2))`,
or `1.0` when the average energy is not positive). -/
def energyScale (sectionEs : List ℚ) (s : ℕ) : ℚ :=
  let avg := sectionEs.sum / ((max 1 sectionEs.length : ℕ) : ℚ)
  if avg > 0 then 7/10 + (3/5) * (sectionEs.getD s 0 / max (1/100) (avg * 2))
  else 1

/-- Step 2 of `generate_events`: the eight sections with their beat lists and
quotas. -/
def sectionsOf (bd : BeatMap) (params : DifficultyParams) : List (List ℚ × ℤ) :=
  let section_dur := (bd.duration_s - 2 - 4) / 8
  let cands := candidateBeats bd params
  let energies := sectionEnergies bd
  (List.range 8).map (fun (s : ℕ) =>
    let s_start := 4 + (s : ℚ) * section_dur
    let s_end := s_start + section_dur
    let s_beats := cands.filter (fun b => decide (s_start ≤ b ∧ b < s_end))
    let progress := ((s : ℚ) + 1/2) / 8
    let quota_frac := params.curve_start + (1 - params.curve_start) * progress
    let escale := energyScale energies s
    (s_beats, max 0 (roundHalfEven ((s_beats.length : ℚ) * params.density * quota_frac * escale))))

/-- Score-descending sort relation on `(beat, score, energy)` triples
(stable, like Python `sort(key=lambda x: -x[1])`). -/
def byScoreDesc (a b : ℚ × ℚ × ℚ) : Prop := b.2.1 ≤ a.2.1

instance : DecidableRel byScoreDesc :=
  fun a b => inferInstanceAs (Decidable (b.2.1 ≤ a.2.1))

/-- Time-ascending sort relation on the same triples. -/
def byTimeFst (a b : ℚ × ℚ × ℚ) : Prop := a.1 ≤ b.1

instance : DecidableRel byTimeFst :=
  fun a b => inferInstanceAs (Decidable (a.1 ≤ b.1))

/-- Step 3 scoring of one section's beats (energy floor, energy-weighted
score with a random jitter drawn only for surviving beats). -/
def scoreSectionBeats (bd : BeatMap) (params : DifficultyParams)
    (s_beats : List ℚ) (r : Rng) : List (ℚ × ℚ × ℚ) × Rng :=
  s_beats.foldl (fun acc bt =>
    let e_val := sample_at bd.energy bt bd.resolution_ms
    if e_val < params.energy_floor then acc
    else
      let score := (1 - params.energy_influence) + params.energy_influence * e_val
      let p := acc.2.next
      (acc.1 ++ [(bt, score + p.1 * (1/10), e_val)], p.2)) ([], r)

/-- Step 3 of `generate_events`: per section take the top-quota beats by
score, re-ordered by time. -/
def selectSectionBeats (bd : BeatMap) (params : DifficultyParams)
    (sections : List (List ℚ × ℤ)) (r : Rng) : List (ℚ × ℚ × ℚ) × Rng :=
  sections.foldl (fun acc sq =>
    if sq.2 ≤ 0 ∨ sq.1 = [] then acc
    else
      let sc := scoreSectionBeats bd params sq.1 acc.2
      let picked := (List.insertionSort byScoreDesc sc.1).take sq.2.toNat
      (acc.1 ++ List.insertionSort byTimeFst picked, sc.2)) ([], r)

/-- Step 4 of `generate_events`: the set of indices that become pickups. -/
def pickupIndicesOf (n : ℕ) (ratio : ℚ) (r : Rng) : List ℤ × Rng :=
  let np := max 1 (roundHalfEven ((n : ℚ) * ratio))
  if np > 0 ∧ n > 0 then
    let spacing := (n : ℚ) / (np : ℚ)
    (List.range np.toNat).foldl (fun acc i =>
      let p := acc.2.next
      let idx := min ((n : ℤ) - 1)
        (roundHalfEven ((i : ℚ) * spacing + p.1 * spacing * (2/5)))
      (setInsert idx acc.1, p.2)) ([], r)
  else ([], r)

/-- First index with the lexicographically least `(count, tiebreak)` key
(Python `min(range(4), key=...)`). -/
def argminLexAux : List (ℕ × (ℕ × ℚ)) → ℕ × (ℕ × ℚ) → ℕ
  | [], best => best.1
  | c :: rest, best =>
    if c.2.1 < best.2.1 ∨ (c.2.1 = best.2.1 ∧ c.2.2 < best.2.2) then argminLexAux rest c
    else argminLexAux rest best

/-- Lane usage count (`lane_counts[l]`). -/
def laneCount (counts : List ℕ) (l : ℤ) : ℕ := counts.getD l.toNat 0

/-- Increment a lane usage count (`lane_counts[lane] += 1`). -/
def bumpLane (counts : List ℕ) (l : ℤ) : List ℕ :=
  counts.set l.toNat (laneCount counts l + 1)

/-- The mutable state of `generate_events` step 5. -/
structure GenState where
  events : List CourseEvent
  lane_counts : List ℕ
  wave_idx : ℕ
  rng : Rng

/-- One iteration of the step-5 loop of `generate_events` over
`enumerate(selected_beats)`. -/
def genStep (bd : BeatMap) (params : DifficultyParams) (pidx : List ℤ)
    (wave_offset : ℕ) (st : GenState) (isel : ℕ × (ℚ × ℚ × ℚ)) : GenState :=
  let beat_time := isel.2.1
  let e_val := isel.2.2.2
  let bass_val := sample_at bd.bass beat_time bd.resolution_ms
  let perc_val := sample_at bd.percussive beat_time bd.resolution_ms
  let harm_val := sample_at bd.harmonic beat_time bd.resolution_ms
  if (isel.1 : ℤ) ∈ pidx then
    let p0 := st.rng.next
    let p1 := p0.2.next
    let p2 := p1.2.next
    let p3 := p2.2.next
    let keys := [(laneCount st.lane_counts 0, p0.1), (laneCount st.lane_counts 1, p1.1),
                 (laneCount st.lane_counts 2, p2.1), (laneCount st.lane_counts 3, p3.1)]
    let pickup_lane : ℤ :=
      match keys.enum with
      | [] => 0
      | h :: t => (argminLexAux t h : ℤ)
    let pe := p3.2.next
    let etype := if pe.1 > 3/10 then "pickup_ammo" else "pickup_shield"
    { events := st.events ++ [⟨round3 beat_time, pickup_lane, etype, none⟩],
      lane_counts := bumpLane st.lane_counts pickup_lane,
      wave_idx := st.wave_idx,
      rng := pe.2 }
  else
    let c2 : ℕ × Rng :=
      if params.max_per_cluster ≥ 2 ∧ e_val > params.cluster2_energy then
        let p := st.rng.next
        (if p.1 < params.cluster2_prob then 2 else 1, p.2)
      else (1, st.rng)
    let c3 : ℕ × Rng :=
      if params.max_per_cluster ≥ 3 ∧ e_val > params.cluster3_energy then
        let p := c2.2.next
        (if p.1 < params.cluster3_prob then 3 else c2.1, p.2)
      else c2
    let cluster_size := c3.1
    let wl := wave_lane (st.wave_idx + wave_offset) params c3.2
    let primary := wl.1
    let chosen : List ℤ :=
      if cluster_size > 1 then
        let available := lanesAll.filter (fun l => decide (l ≠ primary))
        let avail2 := List.insertionSort
          (fun a b => |a - primary| < |b - primary| ∨
            (|a - primary| = |b - primary| ∧ laneCount st.lane_counts a ≤ laneCount st.lane_counts b))
          available
        let max_obstacles := 4 - params.min_safe_lanes
        let extra := min ((cluster_size : ℤ) - 1) (min (max_obstacles - 1) (avail2.length : ℤ))
        primary :: pySliceTo avail2 extra
      else [primary]
    let final := chosen.foldl (fun acc lane =>
        let pt := pick_type bass_val perc_val harm_val params acc.2 false
        ((acc.1.1 ++ [CourseEvent.mk (round3 beat_time) lane pt.1 none],
          bumpLane acc.1.2 lane), pt.2))
      ((st.events, st.lane_counts), wl.2)
    { events := final.1.1, lane_counts := final.1.2,
      wave_idx := st.wave_idx + 1, rng := final.2 }

/-- `generate_events` from `generate_courses.py`. -/
def generate_events (bd : BeatMap) (params : DifficultyParams) (r : Rng) :
    List CourseEvent × Rng :=
  if candidateBeats bd params = [] then ([], r)
  else
    let sections := sectionsOf bd params
    let sel := selectSectionBeats bd params sections r
    let pidx := pickupIndicesOf sel.1.length params.pickup_ratio sel.2
    let wo := pidx.2.randint 0 ((BOUNCE.length : ℤ) - 1)
    let st0 : GenState := ⟨[], [0, 0, 0, 0], 0, wo.2⟩
    let stF := sel.1.enum.foldl (genStep bd params pidx.1 wo.1.toNat) st0
    (stF.events, stF.rng)

/-- `ScoreBreakdown` from `generate_courses.py` (sub-scores default to 0). -/
structure ScoreBreakdown where
  beat_sync : ℚ := 0
  flow : ℚ := 0
  difficulty_curve : ℚ := 0
  type_variety : ℚ := 0
  lane_coverage : ℚ := 0
  energy_match : ℚ := 0
  cull_rate : ℚ := 0
deriving DecidableEq, Repr

/-- The `total` property: fixed-weight sum with weights
.25/.20/.15/.10/.10/.10/.10. -/
def ScoreBreakdown.total (s : ScoreBreakdown) : ℚ :=
  s.beat_sync * (25/100) + s.flow * (20/100) + s.difficulty_curve * (15/100) +
  s.type_variety * (10/100) + s.lane_coverage * (10/100) +
  s.energy_match * (10/100) + s.cull_rate * (10/100)

/-- `pearson_correlation` from `generate_courses.py`, with `math.sqrt`
abstracted as `sqrtQ`. -/
def pearson (sqrtQ : ℚ → ℚ) (x y : List ℚ) : ℚ :=
  let n := x.length
  if n < 2 then 0
  else
    let mx := x.sum / (n : ℚ)
    let my := y.sum / (n : ℚ)
    let num := ((List.range n).map (fun i => (x.getD i 0 - mx) * (y.getD i 0 - my))).sum
    let den_x := sqrtQ (((List.range n).map (fun i => (x.getD i 0 - mx) ^ 2)).sum)
    let den_y := sqrtQ (((List.range n).map (fun i => (y.getD i 0 - my) ^ 2)).sum)
    if den_x = 0 ∨ den_y = 0 then 0 else num / (den_x * den_y)

/-- Non-pickup events (`obstacle_events` in `compute_scores`). -/
def obstacleEvents (events : List CourseEvent) : List CourseEvent :=
  events.filter (fun e => !pyStartswith e.type "pickup")

/-- Sub-score 1, `beat_sync`: share of events within 100 ms of a beat. -/
def beatSyncScore (beats : List ℚ) (events : List CourseEvent) : ℚ :=
  if events = [] then 0
  else
    min 10 (((events.countP (fun e => decide (find_nearest_beat beats e.t ≤ 1/10))) : ℚ) /
      (events.length : ℚ) * 10)

/-- The flow grouping loop: collapse obstacle events into 50 ms time groups
and keep each group's first lane. -/
def flowGroupLoop : List CourseEvent → ℚ → ℤ → List ℤ → List ℤ
  | [], _, fl, acc => if fl ≥ 0 then acc ++ [fl] else acc
  | e :: rest, ct, fl, acc =>
    if |e.t - ct| < 1/20 then flowGroupLoop rest ct fl acc
    else flowGroupLoop rest e.t e.lane (if fl ≥ 0 then acc ++ [fl] else acc)

/-- First lanes of the 50 ms time groups of the obstacle events. -/
def flowGroupLanes (obstacles : List CourseEvent) : List ℤ :=
  flowGroupLoop (sortByT obstacles) (-999) (-1) []

/-- The transition-statistics loop of the `flow` sub-score: counts
`(small_steps, total_transitions, reversals, directional_moves)`. -/
def flowStatsLoop : List ℤ → ℤ → ℤ → ℕ × ℕ × ℕ × ℕ → ℕ × ℕ × ℕ × ℕ
  | [], _, _, st => st
  | cur :: rest, prev, prev_dir, (small, tr, rev, dirm) =>
    let diff := cur - prev
    let small' := if |diff| ≤ 1 then small + 1 else small
    if diff ≠ 0 then
      let dir : ℤ := if diff > 0 then 1 else -1
      let rev' := if prev_dir ≠ 0 ∧ dir ≠ prev_dir then rev + 1 else rev
      flowStatsLoop rest cur dir (small', tr + 1, rev', dirm + 1)
    else flowStatsLoop rest cur prev_dir (small', tr + 1, rev, dirm)

/-- Sub-score 2, `flow`: small-step fraction minus a reversal penalty,
scaled by 10.5 and clamped to [0,10]; 10 in the degenerate branches, with
the unreachable trailing `else` branch of the source kept as 8. -/
def flowScore (events : List CourseEvent) : ℚ :=
  let obstacles := obstacleEvents events
  if obstacles.length ≥ 3 then
    let fg := flowGroupLanes obstacles
    if fg.length ≥ 3 then
      match fg with
      | [] => 10
      | g0 :: gs =>
        let st := flowStatsLoop gs g0 0 (0, 0, 0, 0)
        let step_score := (st.1 : ℚ) / ((max 1 st.2.1 : ℕ) : ℚ)
        let reversal_rate := (st.2.2.1 : ℚ) / ((max 1 st.2.2.2 : ℕ) : ℚ)
        let raw := step_score - reversal_rate * (2/5)
        min 10 (max 0 (raw * (21/2)))
    else 10
  else if obstacles.length ≤ 2 then 10
  else 8

/-- Sub-score 3, `difficulty_curve`: Pearson correlation of obstacle counts
in 8 equal windows against the window index, mapped by `(corr+1)*5`. -/
def curveScore (sqrtQ : ℚ → ℚ) (events : List CourseEvent) (duration : ℚ) : ℚ :=
  let obstacles := obstacleEvents events
  if obstacles ≠ [] ∧ duration > 0 then
    let window_dur := duration / 8
    let densities := (List.range 8).map (fun (w : ℕ) =>
      ((obstacles.countP (fun e =>
        decide ((w : ℚ) * window_dur ≤ e.t ∧ e.t < ((w : ℚ) + 1) * window_dur))) : ℚ))
    if densities.sum > 0 then
      let indices := (List.range 8).map (fun (i : ℕ) => (i : ℚ))
      min 10 (max 0 ((pearson sqrtQ indices densities + 1) * 5))
    else 0
  else 0

/-- The per-event type categories of `compute_scores`'s `type_variety`
block: every pickup variant maps to `'pickup'`. -/
def eventCategories (events : List CourseEvent) : List String :=
  events.map (fun e => if pyStartswith e.type "pickup" then "pickup" else e.type)

/-- One summand `(c/total) * log2(c/total)` of the Shannon entropy. -/
def entropyTerm (log2Q : ℚ → ℚ) (cats : List String) (total : ℚ) (c : String) : ℚ :=
  ((cats.count c : ℚ) / total) * log2Q ((cats.count c : ℚ) / total)

/-- Sub-score 4, `type_variety`: normalized Shannon entropy over the
{crash, car, slow, pickup, …} category counts, with `math.log2` abstracted
as `log2Q`; a single category scores a flat 2.0. -/
def varietyScore (log2Q : ℚ → ℚ) (events : List CourseEvent) : ℚ :=
  if events = [] then 0
  else
    let cats := eventCategories events
    if cats.dedup.length > 1 then
      let entropy := -((cats.dedup.map (entropyTerm log2Q cats (events.length))).sum)
      let max_entropy := log2Q (((min cats.dedup.length 4 : ℕ) : ℚ))
      min 10 (entropy / max_entropy * 10)
    else 2

/-- Sub-score 5, `lane_coverage`: squared-deviation penalty from even lane
usage, clamped to [0,10]. -/
def laneCoverageScore (events : List CourseEvent) : ℚ :=
  if events = [] then 0
  else
    let counts := lanesAll.map (fun l => ((events.countP (fun e => decide (e.lane = l))) : ℚ))
    let total := counts.sum
    if total > 0 then
      let expected := total / 4
      let deviation := ((counts.map (fun c => (c - expected) ^ 2)).sum) / expected
      min 10 (max 0 (10 - deviation * 2))
    else 0

/-- Sub-score 6, `energy_match`: Pearson correlation of per-window spawn
counts against mean raw energy per window. -/
def energyMatchScore (sqrtQ : ℚ → ℚ) (events : List CourseEvent) (bd : BeatMap) : ℚ :=
  if events ≠ [] ∧ bd.duration_s > 0 then
    let num_windows := max 2 (truncQ (bd.duration_s / 10)).toNat
    let window_dur := bd.duration_s / (num_windows : ℚ)
    let spawn_densities := (List.range num_windows).map (fun (w : ℕ) =>
      ((events.countP (fun e =>
        decide ((w : ℚ) * window_dur ≤ e.t ∧ e.t < ((w : ℚ) + 1) * window_dur))) : ℚ))
    let energy_averages := (List.range num_windows).map (fun (w : ℕ) =>
      let i_start := truncQ ((w : ℚ) * window_dur * 1000 / bd.resolution_ms)
      let i_end := truncQ (((w : ℚ) + 1) * window_dur * 1000 / bd.resolution_ms)
      let i_start' := max 0 (min i_start ((bd.energy.length : ℤ) - 1))
      let i_end' := max (i_start' + 1) (min i_end (bd.energy.length : ℤ))
      (((bd.energy.drop i_start'.toNat).take (i_end' - i_start').toNat).sum) /
        ((max 1 (i_end' - i_start') : ℤ) : ℚ))
    if spawn_densities.length ≥ 2 then
      min 10 (max 0 ((pearson sqrtQ spawn_densities energy_averages + 1) * 5))
    else 5
  else 0

/-- Sub-score 7, `cull_rate`: `10 − 33.3·(culled/total)`, clamped to [0,10],
10 when nothing was generated. -/
def cullRateScore (cull_count total_generated : ℕ) : ℚ :=
  if total_generated > 0 then
    min 10 (max 0 (10 - ((cull_count : ℚ) / (total_generated : ℚ)) * (333/10)))
  else 10

/-- `compute_scores` from `generate_courses.py`: the all-zero breakdown for
an empty event list, otherwise the seven sub-scores. -/
def compute_scores (sqrtQ log2Q : ℚ → ℚ) (events : List CourseEvent)
    (bd : BeatMap) (cull_count total_generated : ℕ) : ScoreBreakdown :=
  if events = [] then {}
  else
    { beat_sync := beatSyncScore bd.beats events,
      flow := flowScore events,
      difficulty_curve := curveScore sqrtQ events bd.duration_s,
      type_variety := varietyScore log2Q events,
      lane_coverage := laneCoverageScore events,
      energy_match := energyMatchScore sqrtQ events bd,
      cull_rate := cullRateScore cull_count total_generated }

/-- The serialized score dictionary (`ScoreBreakdown.to_dict`, 2-decimal
rounding). -/
structure ScoreDict where
  total : ℚ
  beat_sync : ℚ
  flow : ℚ
  difficulty_curve : ℚ
  type_variety : ℚ
  lane_coverage : ℚ
  energy_match : ℚ
  cull_rate : ℚ
deriving DecidableEq, Repr

/-- `ScoreBreakdown.to_dict` from `generate_courses.py`. -/
def ScoreBreakdown.to_dict (s : ScoreBreakdown) : ScoreDict :=
  ⟨round2 s.total, round2 s.beat_sync, round2 s.flow, round2 s.difficulty_curve,
   round2 s.type_variety, round2 s.lane_coverage, round2 s.energy_match,
   round2 s.cull_rate⟩

/-- `adjust_params` from `generate_courses.py`: deficit-proportional,
bounded nudges toward each weak sub-score's remedy, on a copy of the
parameter bundle. -/
def adjust_params (params : DifficultyParams) (scores : ScoreBreakdown) :
    DifficultyParams :=
  let p0 := params
  let p1 := if scores.flow < 19/2 then
      { p0 with wave_noise := max 0 (p0.wave_noise - (2/100) * (10 - scores.flow)),
                wave_period := min 24 (p0.wave_period + 1) }
    else p0
  let p2 := if scores.difficulty_curve < 9 then
      let cs := max (2/100) (p1.curve_start - (2/100) * (10 - scores.difficulty_curve))
      { p1 with curve_start := cs }
    else p1
  let p3 := if scores.type_variety < 9 then
      let deficit := 10 - scores.type_variety
      let avg_w := (p2.crash_weight + p2.car_weight + p2.slow_weight) / 3
      { p2 with crash_weight := p2.crash_weight + (avg_w - p2.crash_weight) * (8/100) * deficit,
                car_weight := p2.car_weight + (avg_w - p2.car_weight) * (8/100) * deficit,
                slow_weight := p2.slow_weight + (avg_w - p2.slow_weight) * (8/100) * deficit,
                pickup_ratio := max (8/100) (min (45/100) (p2.pickup_ratio + (1/100) * deficit)) }
    else p2
  let p4 := if scores.lane_coverage < 9 then
      { p3 with wave_amplitude := 3,
                wave_noise := max 0 (p3.wave_noise - (2/100) * (10 - scores.lane_coverage)) }
    else p3
  let p5 := if scores.energy_match < 9 then
      let ei := min (95/100) (p4.energy_influence + (6/100) * (10 - scores.energy_match))
      let ef := min (35/100) (p4.energy_floor + (2/100) * (10 - scores.energy_match))
      { p4 with energy_influence := ei, energy_floor := ef }
    else p4
  if scores.cull_rate < 19/2 then
    let deficit := 10 - scores.cull_rate
    { p5 with density := max (25/100) (p5.density - (2/100) * deficit),
              cluster2_prob := max (5/100) (p5.cluster2_prob - (3/100) * deficit),
              cluster3_prob := max (2/100) (p5.cluster3_prob - (3/100) * deficit) }
  else p5

/-- Python `min(candidates, key=...)`: first element with the least key. -/
def pyMinByAux (key : ℚ → ℚ) : List ℚ → ℚ → ℚ
  | [], best => best
  | c :: rest, best =>
    if key c < key best then pyMinByAux key rest c else pyMinByAux key rest best

/-- Python `min(l, key=...)` on a nonempty rational list (0 as a never-used
default for the empty list, which the source guards against). -/
def pyMinBy (key : ℚ → ℚ) (l : List ℚ) : ℚ :=
  match l with
  | [] => 0
  | x :: xs => pyMinByAux key xs x

/-- One candidate step of `add_car_crash_beats`: one trigger draw per `car`
event; on success find the collision beat 1–3 s before the kill-zone arrival
(closest to 2 s), derive the crash lead from the screen geometry
(`SPAWN_X = 2040`, `KILL_ZONE_X = 200`, `CAR_SPEED = 350`,
`ROAD_BASE_SPEED = 1000`). -/
def carCrashStep (beats : List ℚ) (car_crash_prob : ℚ)
    (acc : List CourseEvent × Rng) (car_ev : CourseEvent) : List CourseEvent × Rng :=
  let p := acc.2.next
  if p.1 > car_crash_prob then (acc.1, p.2)
  else
    let car_t := car_ev.t
    let cand := beats.filter (fun b => decide (1 ≤ car_t - b ∧ car_t - b ≤ 3))
    if cand = [] then (acc.1, p.2)
    else
      let collision_t := pyMinBy (fun b => |car_t - b - 2|) cand
      let time_before_kz := car_t - collision_t
      let car_x_at_collision := 200 + 350 * time_before_kz
      let crash_travel := 2040 - car_x_at_collision
      if crash_travel ≤ 0 then (acc.1, p.2)
      else
        (acc.1 ++ [⟨round3 collision_t, car_ev.lane, "car_crash_beat",
          some (round3 (crash_travel / 1000))⟩], p.2)

/-- `add_car_crash_beats` from `generate_courses.py`. -/
def add_car_crash_beats (events : List CourseEvent) (bd : BeatMap) (r : Rng)
    (car_crash_prob : ℚ := 35/100) : List CourseEvent × Rng :=
  let car_events := events.filter (fun e => decide (e.type = "car"))
  let res := car_events.foldl (carCrashStep bd.beats car_crash_prob) ([], r)
  (sortByT (events ++ res.1), res.2)

/-- One candidate step of `add_guardians`: one trigger draw per
`pickup_ammo` event, then an offset draw; skip guardians that would land
before the intro-skip boundary (4 s). -/
def guardianStep (guardian_prob : ℚ) (acc : List CourseEvent × Rng)
    (pickup_ev : CourseEvent) : List CourseEvent × Rng :=
  let p := acc.2.next
  if p.1 > guardian_prob then (acc.1, p.2)
  else
    let q := p.2.next
    let offset := 3/10 + q.1 * (1/2)
    let guardian_t := round3 (pickup_ev.t - offset)
    if guardian_t < 4 then (acc.1, q.2)
    else (acc.1 ++ [⟨guardian_t, pickup_ev.lane, "guardian", none⟩], q.2)

/-- `add_guardians` from `generate_courses.py`. -/
def add_guardians (events : List CourseEvent) (r : Rng)
    (guardian_prob : ℚ := 1/2) : List CourseEvent × Rng :=
  let pickups := events.filter (fun e => decide (e.type = "pickup_ammo"))
  let res := pickups.foldl (guardianStep guardian_prob) ([], r)
  (sortByT (events ++ res.1), res.2)

/-- One candidate step of `add_enemy_cars`, operating on the index of a
`car` event of the original list: one trigger draw; skip cars already paired
with a `car_crash_beat` within 4 s on the same lane; snap the sweet-spot
arrival (`car_t − (960 − 200)/350`) to the nearest beat and convert the
event in place when the snap error is at most 0.5 s. -/
def enemyCarStep (beats : List ℚ) (enemy_prob : ℚ)
    (acc : List CourseEvent × Rng) (i : ℕ) : List CourseEvent × Rng :=
  let p := acc.2.next
  if p.1 > enemy_prob then (acc.1, p.2)
  else
    match acc.1.get? i with
    | none => (acc.1, p.2)
    | some car_ev =>
      let has_crash_beat := acc.1.any (fun e =>
        decide (e.type = "car_crash_beat" ∧ e.lane = car_ev.lane ∧ |e.t - car_ev.t| < 4))
      if has_crash_beat then (acc.1, p.2)
      else
        let sweet_arrival := car_ev.t - (960 - 200) / 350
        if beats = [] then (acc.1, p.2)
        else
          let snap_t := pyMinBy (fun b => |b - sweet_arrival|) beats
          if |snap_t - sweet_arrival| > 1/2 then (acc.1, p.2)
          else (acc.1.set i { car_ev with type := "enemy_car", t := round3 snap_t }, p.2)

/-- `add_enemy_cars` from `generate_courses.py` (the in-place `car` →
`enemy_car` conversions modelled as positional updates). -/
def add_enemy_cars (events : List CourseEvent) (bd : BeatMap) (r : Rng)
    (enemy_prob : ℚ := 25/100) : List CourseEvent × Rng :=
  let idxs := (events.enum.filter (fun ie => decide (ie.2.type = "car"))).map (fun ie => ie.1)
  let res := idxs.foldl (enemyCarStep bd.beats enemy_prob) (events, r)
  (sortByT res.1, res.2)

/-- The champion record of the search loop. -/
structure Champ where
  events : Option (List CourseEvent) := none
  score : ScoreBreakdown := {}
  seed : ℕ := 0
  attempts : ℕ := 0

/-- The attempt loop of `generate_course`: per attempt, seed a fresh random
source with `attempt + 1`, generate → validate → score, keep the champion,
stop early at the target score, otherwise adjust parameters. -/
def genLoop (mt : ℕ → ℕ → ℚ) (sqrtQ log2Q : ℚ → ℚ) (bd : BeatMap)
    (target_score : ℚ) : ℕ → ℕ → DifficultyParams → Champ → Champ
  | 0, _, _, ch => ch
  | n + 1, attempt, params, ch =>
    let seed := attempt + 1
    let rng : Rng := ⟨mt seed, 0⟩
    let events := (generate_events bd params rng).1
    let total_generated := events.length
    let v := validate_paths events params
    let scores := compute_scores sqrtQ log2Q v.1 bd v.2 total_generated
    let ch' := if scores.total > ch.score.total then
        { events := some v.1, score := scores, seed := seed, attempts := attempt + 1 }
      else ch
    if scores.total ≥ target_score then ch'
    else genLoop mt sqrtQ log2Q bd target_score n (attempt + 1) (adjust_params params scores) ch'

/-- The three difficulty names of the preset table. -/
inductive Difficulty
  | easy
  | normal
  | hard
deriving DecidableEq, Repr

/-- `DIFFICULTY_PRESETS[difficulty]`. -/
def Difficulty.preset : Difficulty → DifficultyParams
  | .easy => easyPreset
  | .normal => normalPreset
  | .hard => hardPreset

/-- The difficulty's name string. -/
def Difficulty.nameStr : Difficulty → String
  | .easy => "easy"
  | .normal => "normal"
  | .hard => "hard"

/-- The serialized Course document. -/
structure Course where
  spotify_track_id : String
  difficulty : String
  name : String
  duration_s : ℚ
  bpm : ℚ
  version : ℕ
  seed : ℕ
  score : ScoreDict
  attempts : ℕ
  events : List CourseEvent
deriving DecidableEq, Repr

/-- `generate_course` from `generate_courses.py`.  `mt` is the
Mersenne-Twister model shared by both runs (the Python standard library),
`sqrtQ`/`log2Q` the float math functions, and `ambient` models any
process-level entropy a run could observe — the generator never reads it,
because every stochastic decision draws from `Random(seed)` instances whose
seeds are the attempt index (and `champion_seed + 1000` for
post-processing).  Post-processing runs only when the champion event list is
non-empty, exactly like the truthiness test `if champion_events:`. -/
def generate_course (mt : ℕ → ℕ → ℚ) (sqrtQ log2Q : ℚ → ℚ) (ambient : ℕ → ℚ)
    (bd : BeatMap) (difficulty : Difficulty) (max_attempts : ℕ := 50)
    (target_score : ℚ := 96/10) : Course :=
  let _unused := ambient
  let ch := genLoop mt sqrtQ log2Q bd target_score max_attempts 0 difficulty.preset {}
  let final_events :=
    match ch.events with
    | some (e :: es) =>
      let post_rng : Rng := ⟨mt (ch.seed + 1000), 0⟩
      let r1 := add_car_crash_beats (e :: es) bd post_rng
      let r2 := add_guardians r1.1 r1.2
      let r3 := add_enemy_cars r2.1 bd r2.2
      r3.1
    | some [] => []
    | none => []
  { spotify_track_id := bd.spotify_track_id.getD "unknown",
    difficulty := difficulty.nameStr,
    name := "Default",
    duration_s := round3 bd.duration_s,
    bpm := bd.bpm,
    version := 1,
    seed := ch.seed,
    score := ch.score.to_dict,
    attempts := ch.attempts,
    events := final_events }

/-- Totality of the time order, used for sortedness of the stable sort. -/
instance : IsTotal CourseEvent byT := ⟨fun a b => le_total a.t b.t⟩

/-- Transitivity of the time order. -/
instance : IsTrans CourseEvent byT := ⟨fun _ _ _ h1 h2 => le_trans h1 h2⟩

/-- A zero-valued stand-in for the abstracted float math functions, used to
evaluate score components that do not depend on them. -/
def sqrt0 : ℚ → ℚ := fun _ => 0

/-- A rational function with the two properties of `math.log2` the score
bounds rely on: nonpositive on `(0, 1]` and at least 1 on `[2, ∞)`. -/
def log2W : ℚ → ℚ := fun q => if 2 ≤ q then 1 else 0

/-- A concrete all-zero random stream. -/
def rng0 : Rng := ⟨fun _ => 0, 0⟩

/-- Four same-time crash events with a duplicated lane: the input on which
the safety cull loop discards a still-blocked lane. -/
def c1Events : List CourseEvent :=
  [⟨1, 0, "crash", none⟩, ⟨1, 1, "crash", none⟩, ⟨1, 2, "crash", none⟩, ⟨1, 0, "crash", none⟩]

/-- Three groups under the hard preset: a full wall at `t = 0`, a lone
obstacle at `t = 0.4` that is fully culled, and a wall at `t = 0.8`. -/
def c2Events : List CourseEvent :=
  [⟨0, 0, "crash", none⟩, ⟨0, 1, "crash", none⟩, ⟨0, 2, "crash", none⟩, ⟨0, 3, "crash", none⟩,
   ⟨2/5, 0, "crash", none⟩,
   ⟨4/5, 1, "crash", none⟩, ⟨4/5, 2, "crash", none⟩, ⟨4/5, 3, "crash", none⟩]

/-- Three obstacle events collapsing into a single 50 ms time group. -/
def c5Events : List CourseEvent :=
  [⟨5, 0, "crash", none⟩, ⟨5, 1, "crash", none⟩, ⟨5, 2, "crash", none⟩]

/-- A minimal beat map with no signal content. -/
def zeroBd : BeatMap :=
  { resolution_ms := 1
    duration_s := 0
    bpm := 0
    beats := []
    bass := []
    percussive := []
    harmonic := []
    energy := [] }

/-- The Scenario-C beat map: one beat at `t = 8`. -/
def c7Bd : BeatMap :=
  { resolution_ms := 1000
    duration_s := 60
    bpm := 120
    beats := [8]
    bass := []
    percussive := []
    harmonic := []
    energy := [] }

/-- The single `car` event of Scenario C: kill-zone arrival `t = 10`, lane 2. -/
def c7Events : List CourseEvent := [⟨10, 2, "car", none⟩]

/-- A beat map whose energy is concentrated at the first section midpoint
(`t = 5`, raw value 255) and zero at the seven others, with one candidate
beat so the quota computation actually runs. -/
def c8Bd : BeatMap :=
  { resolution_ms := 1000
    duration_s := 22
    bpm := 100
    beats := [5]
    bass := []
    percussive := []
    harmonic := []
    energy := [0, 0, 0, 0, 0, 255, 0] }

/-- The time groups partition the sorted list: concatenating the group event
lists gives back the accumulator followed by the remaining input. -/
theorem groupLoop_join (l : List CourseEvent) :
    ∀ (cgt : ℚ) (cur : List CourseEvent),
      ((groupLoop l cgt cur).map Prod.snd).flatten = cur ++ l := by
  induction l with
  | nil =>
    intro cgt cur
    by_cases h : cur = [] <;> simp [groupLoop, h]
  | cons e rest ih =>
    intro cgt cur
    rw [groupLoop]
    split_ifs with h hc
    · simp [ih]
    · simp [hc, ih]
    · simp [ih]

/-- The safety cull loop conserves events: survivors plus culls equal the
obstacles it started from, whatever the fuel. -/
theorem cullSafetyLoop_len (minSafe : ℤ) (fuel : ℕ) :
    ∀ (obs : List CourseEvent) (blocked : List ℤ) (cull : ℕ),
    (cullSafetyLoop minSafe fuel obs blocked cull).1.length +
      (cullSafetyLoop minSafe fuel obs blocked cull).2.2 = obs.length + cull := by
  induction fuel with
  | zero => intro obs blocked cull; rfl
  | succ fuel ih =>
    intro obs blocked cull
    by_cases h : (4 : ℤ) - blocked.length < minSafe ∧ obs ≠ []
    · rw [cullSafetyLoop, dif_pos h]
      have hlen : 0 < obs.length := List.length_pos.mpr h.2
      rw [ih, List.length_dropLast]
      omega
    · rw [cullSafetyLoop, dif_neg h]

/-- The reachability cull loop conserves events likewise, whatever the fuel. -/
theorem cullReachLoop_len (prevSafe : List ℤ) (maxChange : ℤ) (fuel : ℕ) :
    ∀ (obs : List CourseEvent) (blocked : List ℤ) (cull : ℕ),
    (cullReachLoop prevSafe maxChange fuel obs blocked cull).1.length +
      (cullReachLoop prevSafe maxChange fuel obs blocked cull).2.2 = obs.length + cull := by
  induction fuel with
  | zero => intro obs blocked cull; rfl
  | succ fuel ih =>
    intro obs blocked cull
    by_cases h : obs ≠ []
    · have hlen : 0 < obs.length := List.length_pos.mpr h
      by_cases hreach :
          reachCheck prevSafe (safeLanes (setDiscard (obs.getLast h).lane blocked)) maxChange = true
      · rw [cullReachLoop, dif_pos h, if_pos hreach]
        simp only [List.length_dropLast]
        omega
      · rw [cullReachLoop, dif_pos h, if_neg hreach]
        rw [ih, List.length_dropLast]
        omega
    · rw [cullReachLoop, dif_neg h]

/-- A group step returns exactly the group's pickups as its second component. -/
theorem validateGroup_pickups (minSafe : ℤ) (prev : Option (ℚ × List CourseEvent))
    (gt : ℚ) (ges : List CourseEvent) :
    (validateGroup minSafe prev gt ges).2.1 =
      ges.filter (fun e => pyStartswith e.type "pickup") := by
  unfold validateGroup
  cases prev with
  | none => rfl
  | some p => dsimp only; split_ifs <;> rfl

/-- A group step conserves the group: surviving obstacles, pickups and culls
add up to the group's size. -/
theorem validateGroup_len (minSafe : ℤ) (prev : Option (ℚ × List CourseEvent))
    (gt : ℚ) (ges : List CourseEvent) :
    (validateGroup minSafe prev gt ges).1.length +
      (validateGroup minSafe prev gt ges).2.1.length +
      (validateGroup minSafe prev gt ges).2.2 = ges.length := by
  have hsplit := List.length_eq_length_filter_add
    (l := ges) (fun e => pyStartswith e.type "pickup")
  have h1 := cullSafetyLoop_len minSafe
    (ges.filter (fun e => !pyStartswith e.type "pickup")).length
    (ges.filter (fun e => !pyStartswith e.type "pickup")) (blockedLanesOf ges) 0
  unfold validateGroup
  cases prev with
  | none =>
    dsimp only
    omega
  | some p =>
    dsimp only
    split_ifs with hr he
    · dsimp only
      omega
    · dsimp only
      omega
    · dsimp only
      have h2 := cullReachLoop_len
        (safeLanes (blockedLanesOf p.2)) (truncQ ((gt - p.1) / (3/10)))
        (cullSafetyLoop minSafe (ges.filter (fun e => !pyStartswith e.type "pickup")).length
          (ges.filter (fun e => !pyStartswith e.type "pickup")) (blockedLanesOf ges) 0).1.length
        (cullSafetyLoop minSafe (ges.filter (fun e => !pyStartswith e.type "pickup")).length
          (ges.filter (fun e => !pyStartswith e.type "pickup")) (blockedLanesOf ges) 0).1
        (cullSafetyLoop minSafe (ges.filter (fun e => !pyStartswith e.type "pickup")).length
          (ges.filter (fun e => !pyStartswith e.type "pickup")) (blockedLanesOf ges) 0).2.1
        (cullSafetyLoop minSafe (ges.filter (fun e => !pyStartswith e.type "pickup")).length
          (ges.filter (fun e => !pyStartswith e.type "pickup")) (blockedLanesOf ges) 0).2.2
      omega

/-- The group fold conserves events: surviving events plus culls equal the
total size of the groups. -/
theorem validateGroups_len (minSafe : ℤ) (gs : List (ℚ × List CourseEvent)) :
    ∀ prev, (validateGroups minSafe prev gs).1.length + (validateGroups minSafe prev gs).2
      = ((gs.map Prod.snd).map List.length).sum := by
  induction gs with
  | nil => intro prev; rfl
  | cons g rest ih =>
    intro prev
    obtain ⟨gt, ges⟩ := g
    have h1 := validateGroup_len minSafe prev gt ges
    have h2 := ih (some (gt, ges))
    simp only [validateGroups, List.map_cons, List.sum_cons, List.length_append]
    omega

/-- Every pickup event of the groups survives the group fold. -/
theorem validateGroups_pickup_mem (minSafe : ℤ) (gs : List (ℚ × List CourseEvent)) :
    ∀ prev (e : CourseEvent), (∃ g ∈ gs, e ∈ g.2) →
      pyStartswith e.type "pickup" = true →
      e ∈ (validateGroups minSafe prev gs).1 := by
  induction gs with
  | nil =>
    intro prev e hg _
    obtain ⟨g, hgmem, _⟩ := hg
    exact absurd hgmem (List.not_mem_nil g)
  | cons g rest ih =>
    intro prev e hg hp
    obtain ⟨g', hg', he⟩ := hg
    obtain ⟨gt, ges⟩ := g
    rcases List.mem_cons.mp hg' with rfl | hmem
    · have hmemp : e ∈ (validateGroup minSafe prev gt ges).2.1 := by
        rw [validateGroup_pickups]
        exact List.mem_filter.mpr ⟨he, hp⟩
      simp only [validateGroups, List.mem_append]
      exact Or.inl (Or.inr hmemp)
    · have := ih (some (gt, ges)) e ⟨g', hmem, he⟩ hp
      simp only [validateGroups, List.mem_append]
      exact Or.inr this

/-- C10 — `validate_paths` conservation: survivors plus culls equal the
input size, every pickup event of the input appears in the output, and the
output is sorted in nondecreasing time order. -/
theorem validate_paths_conservation (events : List CourseEvent) (params : DifficultyParams) :
    (validate_paths events params).1.length + (validate_paths events params).2 = events.length ∧
    (∀ e ∈ events, pyStartswith e.type "pickup" = true →
      e ∈ (validate_paths events params).1) ∧
    List.Pairwise (fun a b : CourseEvent => a.t ≤ b.t) (validate_paths events params).1 := by
  by_cases h : events = []
  · subst h
    refine ⟨rfl, ?_, ?_⟩
    · intro e he
      exact absurd he (List.not_mem_nil e)
    · simp [validate_paths]
  · have hperm1 : List.Perm (sortByT events) events := List.perm_insertionSort byT events
    have hjoin := groupLoop_join (sortByT events) (-999) []
    have hsum : (((timeGroups events).map Prod.snd).map List.length).sum = events.length := by
      rw [← List.length_flatten]
      rw [show timeGroups events = groupLoop (sortByT events) (-999) [] from rfl, hjoin]
      simpa using hperm1.length_eq
    have hvp : validate_paths events params =
        (sortByT (validateGroups params.min_safe_lanes none (timeGroups events)).1,
         (validateGroups params.min_safe_lanes none (timeGroups events)).2) := by
      rw [validate_paths, if_neg h]
    have hperm2 : List.Perm
        (sortByT (validateGroups params.min_safe_lanes none (timeGroups events)).1)
        (validateGroups params.min_safe_lanes none (timeGroups events)).1 :=
      List.perm_insertionSort byT _
    refine ⟨?_, ?_, ?_⟩
    · rw [hvp]
      have hlen := validateGroups_len params.min_safe_lanes (timeGroups events) none
      dsimp only
      rw [hperm2.length_eq]
      omega
    · intro e he hp
      rw [hvp]
      dsimp only
      rw [hperm2.mem_iff]
      apply validateGroups_pickup_mem params.min_safe_lanes (timeGroups events) none e _ hp
      have hmem2 : e ∈ ((timeGroups events).map Prod.snd).flatten := by
        rw [show timeGroups events = groupLoop (sortByT events) (-999) [] from rfl, hjoin]
        simpa using hperm1.mem_iff.mpr he
      obtain ⟨s, hs, hes⟩ := List.mem_flatten.mp hmem2
      obtain ⟨g, hg, rfl⟩ := List.mem_map.mp hs
      exact ⟨g, hg, hes⟩
    · rw [hvp]
      exact List.sorted_insertionSort byT _

/-- C10 witness at a concrete input: four same-time crash events under the
normal preset. -/
theorem validate_paths_conservation_witness :
    (validate_paths c1Events normalPreset).1.length +
      (validate_paths c1Events normalPreset).2 = c1Events.length ∧
    (∀ e ∈ c1Events, pyStartswith e.type "pickup" = true →
      e ∈ (validate_paths c1Events normalPreset).1) ∧
    List.Pairwise (fun a b : CourseEvent => a.t ≤ b.t)
      (validate_paths c1Events normalPreset).1 :=
  validate_paths_conservation c1Events normalPreset

/-- C1 — the safety invariant fails on the code: on four same-time crashes
with lanes 0, 1, 2, 0 the cull loop pops the trailing lane-0 obstacle but
discards lane 0 from its blocked set although the first lane-0 obstacle
remains, so the returned list still blocks lanes {0, 1, 2} and leaves one
safe lane where the normal preset requires two. -/
theorem validate_paths_safety_code_bug :
    validate_paths c1Events normalPreset =
      ([⟨1, 0, "crash", none⟩, ⟨1, 1, "crash", none⟩, ⟨1, 2, "crash", none⟩], 1) ∧
    safetyInvariantHolds normalPreset.min_safe_lanes
      (validate_paths c1Events normalPreset).1 = false := by
  norm_num [validate_paths, c1Events, normalPreset, timeGroups, sortByT, List.insertionSort,
    List.orderedInsert, byT, groupLoop, validateGroups, validateGroup, cullSafetyLoop,
    cullReachLoop, blockedLanesOf, setInsert, setDiscard, safeLanes, lanesAll, reachCheck,
    truncQ, pyStartswith, List.cons_ne_nil, List.isPrefixOf, safetyInvariantHolds, abs_lt]

/-- C2 — the reachability invariant fails on the code: under the hard preset
the middle group at `t = 0.4` is fully culled (its check runs against the
previous group's original, pre-cull events, whose four blocked lanes leave
no safe lane), and the group at `t = 0.8` is then checked against the
vanished middle group; in the returned list the consecutive groups at
`t = 0` (safe lane 3) and `t = 0.8` (safe lane 0) violate
`|0 − 3| ≤ int(0.8 / 0.3) = 2`. -/
theorem validate_paths_reachability_code_bug :
    (validate_paths c2Events hardPreset).2 = 2 ∧
    reachInvariantHolds (validate_paths c2Events hardPreset).1 = false := by
  norm_num [validate_paths, c2Events, hardPreset, timeGroups, sortByT, List.insertionSort,
    List.orderedInsert, byT, groupLoop, validateGroups, validateGroup, cullSafetyLoop,
    cullReachLoop, blockedLanesOf, setInsert, setDiscard, safeLanes, lanesAll, reachCheck,
    truncQ, pyStartswith, List.cons_ne_nil, List.isPrefixOf, reachInvariantHolds, abs_lt]

/-- C3 — determinism of `generate_course`: with the standard library's
seeded random source (`mt`) and float math (`sqrtQ`, `log2Q`) fixed, two
runs that may observe arbitrarily different ambient entropy produce the
same Course document, because every stochastic decision draws from
attempt-indexed `Random(seed)` streams and never from the environment. -/
theorem generate_course_deterministic (mt : ℕ → ℕ → ℚ) (sqrtQ log2Q : ℚ → ℚ)
    (ambient1 ambient2 : ℕ → ℚ) (bd : BeatMap) (difficulty : Difficulty)
    (max_attempts : ℕ) (target_score : ℚ) :
    generate_course mt sqrtQ log2Q ambient1 bd difficulty max_attempts target_score =
      generate_course mt sqrtQ log2Q ambient2 bd difficulty max_attempts target_score := rfl

/-- C5 counterexample — three obstacle events that collapse into a single
50 ms time group score `flow = 10.0`, not the claimed 8.0: the `else 8`
branch of the source is unreachable. -/
theorem flow_collapsed_counterexample :
    (compute_scores sqrt0 sqrt0 c5Events zeroBd 0 3).flow = 10 ∧
    (compute_scores sqrt0 sqrt0 c5Events zeroBd 0 3).flow ≠ 8 := by
  norm_num [compute_scores, c5Events, zeroBd, flowScore, obstacleEvents, flowGroupLanes,
    flowGroupLoop, sortByT, List.insertionSort, List.orderedInsert, byT, pyStartswith,
    List.isPrefixOf, List.cons_ne_nil, abs_lt]

/-- C5 amended — an event list with at least three obstacle events whose
50 ms collapse leaves fewer than three flow groups scores `flow = 10.0`
(the degenerate-collapse branch returns 10.0; the 8.0 branch is dead code). -/
theorem flow_collapsed_eq_ten (sqrtQ log2Q : ℚ → ℚ) (events : List CourseEvent)
    (bd : BeatMap) (cull_count total_generated : ℕ)
    (h3 : 3 ≤ (obstacleEvents events).length)
    (hg : (flowGroupLanes (obstacleEvents events)).length < 3) :
    (compute_scores sqrtQ log2Q events bd cull_count total_generated).flow = 10 := by
  have hne : events ≠ [] := by
    intro he
    rw [he] at h3
    simp [obstacleEvents] at h3
  rw [compute_scores, if_neg hne]
  show flowScore events = 10
  simp only [flowScore]
  rw [if_pos h3, if_neg (by omega : ¬ (flowGroupLanes (obstacleEvents events)).length ≥ 3)]

/-- C5 witness: the amended statement at the concrete collapsed input. -/
theorem flow_collapsed_eq_ten_witness :
    (compute_scores sqrt0 sqrt0 c5Events zeroBd 0 3).flow = 10 :=
  flow_collapsed_eq_ten sqrt0 sqrt0 c5Events zeroBd 0 3
    (by norm_num [obstacleEvents, c5Events, pyStartswith, List.isPrefixOf])
    (by norm_num [flowGroupLanes, flowGroupLoop, obstacleEvents, c5Events, sortByT,
      List.insertionSort, List.orderedInsert, byT, pyStartswith, List.isPrefixOf, abs_lt])

/-- C6 counterexample — with an empty validated list and nothing generated,
`compute_scores` early-returns the all-zero breakdown, so `cull_rate = 0`,
not the claimed 10. -/
theorem cull_rate_empty_counterexample :
    (compute_scores sqrt0 sqrt0 [] zeroBd 0 0).cull_rate = 0 ∧
    (compute_scores sqrt0 sqrt0 [] zeroBd 0 0).cull_rate ≠ 10 := by
  norm_num [compute_scores]

/-- C6 amended — when nothing was generated and the validated event list is
nonempty, `cull_rate` is 10; the empty list instead hits the early return
with the zero breakdown. -/
theorem cull_rate_nothing_generated_eq_ten (sqrtQ log2Q : ℚ → ℚ)
    (events : List CourseEvent) (bd : BeatMap) (cull_count : ℕ)
    (h : events ≠ []) :
    (compute_scores sqrtQ log2Q events bd cull_count 0).cull_rate = 10 := by
  rw [compute_scores, if_neg h]
  rfl

/-- C6 witness: the amended statement at a concrete nonempty input. -/
theorem cull_rate_nothing_generated_eq_ten_witness :
    (compute_scores sqrt0 sqrt0 c5Events zeroBd 7 0).cull_rate = 10 :=
  cull_rate_nothing_generated_eq_ten sqrt0 sqrt0 c5Events zeroBd 7
    (by simp [c5Events])

/-- C7 counterexample — Scenario C as executed by the code: the emitted
`car_crash_beat` carries `lead = (2040 − (200 + 350·2)) / 1000 = 1.14`
(= 57/50), not the claimed 1.29. -/
theorem car_crash_beat_lead_counterexample :
    (add_car_crash_beats c7Events c7Bd rng0).1 =
      [⟨8, 2, "car_crash_beat", some (57/50)⟩, ⟨10, 2, "car", none⟩] ∧
    (57/50 : ℚ) ≠ 129/100 := by
  have hnot : ¬ (rng0.stream rng0.idx > 7/20) := by norm_num [rng0]
  norm_num [add_car_crash_beats, c7Events, c7Bd, carCrashStep, Rng.next, pyMinBy, pyMinByAux,
    round3, roundHalfEven, truncQ, sortByT, List.insertionSort, List.orderedInsert, byT,
    hnot, List.cons_ne_nil, abs_lt, rng0]

/-- C7 amended — whenever the trigger draw fires (draw ≤ 0.35), the
post-processor emits the event at `t = 8`, lane 2, with `lead = 1.14`,
derived from the screen-geometry constants. -/
theorem car_crash_beat_scenario (r : Rng) (h : r.stream r.idx ≤ 7/20) :
    (add_car_crash_beats c7Events c7Bd r).1 =
      [⟨8, 2, "car_crash_beat", some (57/50)⟩, ⟨10, 2, "car", none⟩] := by
  have hnot : ¬ (r.stream r.idx > 7/20) := not_lt.mpr h
  norm_num [add_car_crash_beats, c7Events, c7Bd, carCrashStep, Rng.next, pyMinBy, pyMinByAux,
    round3, roundHalfEven, truncQ, sortByT, List.insertionSort, List.orderedInsert, byT,
    hnot, List.cons_ne_nil, abs_lt]

/-- C7 witness: the amended statement at the all-zero stream. -/
theorem car_crash_beat_scenario_witness :
    (add_car_crash_beats c7Events c7Bd rng0).1 =
      [⟨8, 2, "car_crash_beat", some (57/50)⟩, ⟨10, 2, "car", none⟩] :=
  car_crash_beat_scenario rng0 (by norm_num [rng0])

/-- C8 — the energy-scale factor is not confined to [0.7, 1.3]: on a beat
map whose energy is concentrated in one section, section 0 gets
`energy_scale = 0.7 + 0.6·(1 / max(0.01, 2·(1/8))) = 3.1`, contradicting
the source's own `±30% max` comment; the third conjunct shows the quota
path is live for this beat map (a candidate beat exists). -/
theorem energy_scale_exceeds_thirty_percent :
    energyScale (sectionEnergies c8Bd) 0 = 31/10 ∧
    ¬ (energyScale (sectionEnergies c8Bd) 0 ≤ 13/10) ∧
    candidateBeats c8Bd hardPreset = [5] := by
  have hr : List.range 8 = [0, 1, 2, 3, 4, 5, 6, 7] := rfl
  have h5 : Int.toNat 5 = 5 := rfl
  norm_num [energyScale, sectionEnergies, c8Bd, sample_at, truncQ, candidateBeats, hardPreset,
    hr, h5, List.cons_ne_nil, List.getD_cons_succ, List.getD_cons_zero, max_def,
    List.filterMap_cons, List.enum]

/-- C9 counterexample — `sample_at` does not clamp for every time before
the first sample: at `t = −0.5 s` with 1 s resolution, `int(idx)` truncates
`−0.5` to `0`, the negative fraction extrapolates with the first two
samples, and the result `−1/2` differs from the first sample's value 0. -/
theorem sample_at_negative_extrapolates :
    sample_at [0, 255] (-1/2) 1000 = -1/2 ∧
    sample_at [0, 255] (-1/2) 1000 ≠ ([0, 255] : List ℚ).headI / 255 := by
  have hc : (⌈(-(1/2) : ℚ)⌉ : ℤ) = 0 := by norm_num
  norm_num [sample_at, truncQ, List.headI, List.getD_cons_succ, List.getD_cons_zero,
    List.cons_ne_nil, hc, Int.toNat_ofNat]

/-- C9 amended — `sample_at` returns 0 on the empty signal; clamps to the
first sample only once `idx = t·1000/res ≤ −1`; clamps to the last sample
at or beyond the end; and for `t ≥ 0` inside the range it is a genuine
linear interpolation with fraction in `[0, 1)`.  (For `t` in
`(−res/1000, 0)` truncation yields index 0 with a negative fraction, i.e.
extrapolation — the clamping part of the claim holds only for `t ≥ 0`.) -/
theorem sample_at_spec (arr : List ℚ) (resolution_ms t : ℚ) (hres : 0 < resolution_ms) :
    (arr = [] → sample_at arr t resolution_ms = 0) ∧
    (arr ≠ [] → t * 1000 / resolution_ms ≤ -1 →
      sample_at arr t resolution_ms = arr.headI / 255) ∧
    (arr ≠ [] → (arr.length : ℤ) - 1 ≤ truncQ (t * 1000 / resolution_ms) →
      sample_at arr t resolution_ms = arr.getLastD 0 / 255) ∧
    (arr ≠ [] → 0 ≤ t → truncQ (t * 1000 / resolution_ms) < (arr.length : ℤ) - 1 →
      ∃ frac : ℚ, 0 ≤ frac ∧ frac < 1 ∧
        sample_at arr t resolution_ms =
          (arr.getD (truncQ (t * 1000 / resolution_ms)).toNat 0 * (1 - frac) +
            arr.getD ((truncQ (t * 1000 / resolution_ms)).toNat + 1) 0 * frac) / 255) := by
  refine ⟨fun he => by rw [sample_at, if_pos he], ?_, ?_, ?_⟩
  · intro hne hle
    have hi0 : truncQ (t * 1000 / resolution_ms) < 0 := by
      rw [truncQ]
      split_ifs with h0
      · linarith
      · have hc : (⌈t * 1000 / resolution_ms⌉ : ℤ) ≤ -1 := by
          rw [Int.ceil_le]
          push_cast
          linarith
        omega
    simp only [sample_at]
    rw [if_neg hne, if_pos hi0]
  · intro hne hge
    have hlen : 0 < arr.length := List.length_pos.mpr hne
    have hi0 : ¬ (truncQ (t * 1000 / resolution_ms) < 0) := by
      intro hlt
      omega
    simp only [sample_at]
    rw [if_neg hne, if_neg hi0, if_pos hge]
  · intro hne ht hi0lt
    have hidx : 0 ≤ t * 1000 / resolution_ms :=
      div_nonneg (by linarith) hres.le
    have htr : truncQ (t * 1000 / resolution_ms) = ⌊t * 1000 / resolution_ms⌋ := by
      rw [truncQ, if_pos hidx]
    have hi0 : ¬ (truncQ (t * 1000 / resolution_ms) < 0) := by
      rw [htr]
      exact not_lt.mpr (Int.floor_nonneg.mpr hidx)
    refine ⟨t * 1000 / resolution_ms - ((truncQ (t * 1000 / resolution_ms) : ℤ) : ℚ),
      ?_, ?_, ?_⟩
    · rw [htr]
      have := Int.floor_le (t * 1000 / resolution_ms)
      linarith
    · rw [htr]
      have := Int.lt_floor_add_one (t * 1000 / resolution_ms)
      linarith
    · simp only [sample_at]
      rw [if_neg hne, if_neg hi0, if_neg (not_le.mpr hi0lt)]

/-- C9 witness: the amended statement at `arr = [0, 255]`, 1 s resolution,
`t = 0.5 s` (the interpolation conjunct is live there). -/
theorem sample_at_spec_witness :
    (([0, 255] : List ℚ) = [] → sample_at [0, 255] (1/2) 1000 = 0) ∧
    (([0, 255] : List ℚ) ≠ [] → (1/2 : ℚ) * 1000 / 1000 ≤ -1 →
      sample_at [0, 255] (1/2) 1000 = ([0, 255] : List ℚ).headI / 255) ∧
    (([0, 255] : List ℚ) ≠ [] →
      ((([0, 255] : List ℚ).length : ℤ)) - 1 ≤ truncQ ((1/2 : ℚ) * 1000 / 1000) →
      sample_at [0, 255] (1/2) 1000 = ([0, 255] : List ℚ).getLastD 0 / 255) ∧
    (([0, 255] : List ℚ) ≠ [] → (0 : ℚ) ≤ 1/2 →
      truncQ ((1/2 : ℚ) * 1000 / 1000) < ((([0, 255] : List ℚ).length : ℤ)) - 1 →
      ∃ frac : ℚ, 0 ≤ frac ∧ frac < 1 ∧
        sample_at [0, 255] (1/2) 1000 =
          (([0, 255] : List ℚ).getD (truncQ ((1/2 : ℚ) * 1000 / 1000)).toNat 0 * (1 - frac) +
            ([0, 255] : List ℚ).getD ((truncQ ((1/2 : ℚ) * 1000 / 1000)).toNat + 1) 0 * frac) / 255) :=
  sample_at_spec [0, 255] 1000 (1/2) (by norm_num)

/-- A list of nonpositive rationals sums to a nonpositive value. -/
theorem listSum_nonpos {l : List ℚ} (h : ∀ x ∈ l, x ≤ 0) : l.sum ≤ 0 := by
  induction l with
  | nil => simp
  | cons a t ih =>
    simp only [List.sum_cons]
    have ha := h a (List.mem_cons_self a t)
    have ht := ih (fun x hx => h x (List.mem_cons_of_mem a hx))
    linarith

/-- The `beat_sync` sub-score lies in [0, 10]. -/
theorem beatSyncScore_bounds (beats : List ℚ) (events : List CourseEvent) :
    0 ≤ beatSyncScore beats events ∧ beatSyncScore beats events ≤ 10 := by
  rw [beatSyncScore]
  split_ifs with h
  · norm_num
  · exact ⟨le_min (by norm_num) (by positivity), min_le_left _ _⟩

/-- The `flow` sub-score lies in [0, 10] (all four branches, the dead 8.0
branch included). -/
theorem flowScore_bounds (events : List CourseEvent) :
    0 ≤ flowScore events ∧ flowScore events ≤ 10 := by
  simp only [flowScore]
  split_ifs with h3 hg
  · split
    · norm_num
    · refine ⟨le_min (by norm_num) (le_max_left 0 _), min_le_left _ _⟩
  · norm_num
  · norm_num
  · norm_num

/-- The `difficulty_curve` sub-score lies in [0, 10], whatever `sqrtQ`
returns, thanks to the clamp. -/
theorem curveScore_bounds (sqrtQ : ℚ → ℚ) (events : List CourseEvent) (duration : ℚ) :
    0 ≤ curveScore sqrtQ events duration ∧ curveScore sqrtQ events duration ≤ 10 := by
  simp only [curveScore]
  split_ifs with h1 h2
  · exact ⟨le_min (by norm_num) (le_max_left 0 _), min_le_left _ _⟩
  · norm_num
  · norm_num

/-- The `lane_coverage` sub-score lies in [0, 10]. -/
theorem laneCoverageScore_bounds (events : List CourseEvent) :
    0 ≤ laneCoverageScore events ∧ laneCoverageScore events ≤ 10 := by
  simp only [laneCoverageScore]
  split_ifs with h1 h2
  · norm_num
  · exact ⟨le_min (by norm_num) (le_max_left 0 _), min_le_left _ _⟩
  · norm_num

/-- The `energy_match` sub-score lies in [0, 10], whatever `sqrtQ` returns. -/
theorem energyMatchScore_bounds (sqrtQ : ℚ → ℚ) (events : List CourseEvent) (bd : BeatMap) :
    0 ≤ energyMatchScore sqrtQ events bd ∧ energyMatchScore sqrtQ events bd ≤ 10 := by
  simp only [energyMatchScore]
  split_ifs with h1 h2
  · exact ⟨le_min (by norm_num) (le_max_left 0 _), min_le_left _ _⟩
  · norm_num
  · norm_num

/-- The `cull_rate` sub-score lies in [0, 10]. -/
theorem cullRateScore_bounds (cull_count total_generated : ℕ) :
    0 ≤ cullRateScore cull_count total_generated ∧
      cullRateScore cull_count total_generated ≤ 10 := by
  rw [cullRateScore]
  split_ifs with h
  · exact ⟨le_min (by norm_num) (le_max_left 0 _), min_le_left _ _⟩
  · norm_num

/-- The `type_variety` sub-score lies in [0, 10], for any `log2Q` that is
nonpositive on (0, 1] and at least 1 on [2, ∞) — both true of `math.log2`. -/
theorem varietyScore_bounds (log2Q : ℚ → ℚ)
    (h1 : ∀ q : ℚ, 0 < q → q ≤ 1 → log2Q q ≤ 0)
    (h2 : ∀ q : ℚ, 2 ≤ q → 1 ≤ log2Q q)
    (events : List CourseEvent) :
    0 ≤ varietyScore log2Q events ∧ varietyScore log2Q events ≤ 10 := by
  simp only [varietyScore]
  split_ifs with hemp hgt
  · norm_num
  · have htot : (0 : ℚ) < (events.length : ℚ) := by
      have : 0 < events.length := List.length_pos.mpr hemp
      exact_mod_cast this
    have hterm : ∀ x ∈ (eventCategories events).dedup.map
        (entropyTerm log2Q (eventCategories events) (events.length : ℚ)), x ≤ 0 := by
      intro x hx
      obtain ⟨c, hc, rfl⟩ := List.mem_map.mp hx
      have hcmem : c ∈ eventCategories events := List.mem_dedup.mp hc
      have hcount : 0 < (eventCategories events).count c := List.count_pos_iff.mpr hcmem
      have hle : (eventCategories events).count c ≤ events.length := by
        have hcl := List.count_le_length c (eventCategories events)
        simpa [eventCategories] using hcl
      have hp0 : 0 < ((eventCategories events).count c : ℚ) / (events.length : ℚ) := by
        apply div_pos _ htot
        exact_mod_cast hcount
      have hp1 : ((eventCategories events).count c : ℚ) / (events.length : ℚ) ≤ 1 := by
        rw [div_le_one htot]
        exact_mod_cast hle
      have hlog := h1 _ hp0 hp1
      rw [entropyTerm]
      calc ((eventCategories events).count c : ℚ) / (events.length : ℚ) *
            log2Q (((eventCategories events).count c : ℚ) / (events.length : ℚ))
          ≤ ((eventCategories events).count c : ℚ) / (events.length : ℚ) * 0 :=
            mul_le_mul_of_nonneg_left hlog hp0.le
        _ = 0 := mul_zero _
    have hent : 0 ≤ -(((eventCategories events).dedup.map
        (entropyTerm log2Q (eventCategories events) (events.length : ℚ))).sum) :=
      neg_nonneg.mpr (listSum_nonpos hterm)
    have hargc : (2 : ℚ) ≤ (((min (eventCategories events).dedup.length 4 : ℕ)) : ℚ) := by
      have : 2 ≤ min (eventCategories events).dedup.length 4 :=
        le_min hgt (by norm_num)
      exact_mod_cast this
    have hmaxE : (0 : ℚ) < log2Q (((min (eventCategories events).dedup.length 4 : ℕ) : ℚ)) := by
      have := h2 _ hargc
      linarith
    constructor
    · apply le_min (by norm_num)
      apply mul_nonneg _ (by norm_num)
      exact div_nonneg hent hmaxE.le
    · exact min_le_left _ _
  · norm_num

/-- C4 — score bounds: every sub-score of `compute_scores` and the
fixed-weight `total` (weights .25 + .20 + .15 + 4·.10 = 1) lie in [0, 10],
for every event list (the empty list included), beat map, cull count and
generation count. -/
theorem compute_scores_bounds (sqrtQ log2Q : ℚ → ℚ)
    (h1 : ∀ q : ℚ, 0 < q → q ≤ 1 → log2Q q ≤ 0)
    (h2 : ∀ q : ℚ, 2 ≤ q → 1 ≤ log2Q q)
    (events : List CourseEvent) (bd : BeatMap) (cull_count total_generated : ℕ) :
    (0 ≤ (compute_scores sqrtQ log2Q events bd cull_count total_generated).beat_sync ∧
      (compute_scores sqrtQ log2Q events bd cull_count total_generated).beat_sync ≤ 10) ∧
    (0 ≤ (compute_scores sqrtQ log2Q events bd cull_count total_generated).flow ∧
      (compute_scores sqrtQ log2Q events bd cull_count total_generated).flow ≤ 10) ∧
    (0 ≤ (compute_scores sqrtQ log2Q events bd cull_count total_generated).difficulty_curve ∧
      (compute_scores sqrtQ log2Q events bd cull_count total_generated).difficulty_curve ≤ 10) ∧
    (0 ≤ (compute_scores sqrtQ log2Q events bd cull_count total_generated).type_variety ∧
      (compute_scores sqrtQ log2Q events bd cull_count total_generated).type_variety ≤ 10) ∧
    (0 ≤ (compute_scores sqrtQ log2Q events bd cull_count total_generated).lane_coverage ∧
      (compute_scores sqrtQ log2Q events bd cull_count total_generated).lane_coverage ≤ 10) ∧
    (0 ≤ (compute_scores sqrtQ log2Q events bd cull_count total_generated).energy_match ∧
      (compute_scores sqrtQ log2Q events bd cull_count total_generated).energy_match ≤ 10) ∧
    (0 ≤ (compute_scores sqrtQ log2Q events bd cull_count total_generated).cull_rate ∧
      (compute_scores sqrtQ log2Q events bd cull_count total_generated).cull_rate ≤ 10) ∧
    (0 ≤ (compute_scores sqrtQ log2Q events bd cull_count total_generated).total ∧
      (compute_scores sqrtQ log2Q events bd cull_count total_generated).total ≤ 10) := by
  rw [compute_scores]
  split_ifs with h
  · norm_num [ScoreBreakdown.total]
  · dsimp only
    have hb := beatSyncScore_bounds bd.beats events
    have hf := flowScore_bounds events
    have hc := curveScore_bounds sqrtQ events bd.duration_s
    have hv := varietyScore_bounds log2Q h1 h2 events
    have hl := laneCoverageScore_bounds events
    have he := energyMatchScore_bounds sqrtQ events bd
    have hr := cullRateScore_bounds cull_count total_generated
    refine ⟨hb, hf, hc, hv, hl, he, hr, ?_⟩
    simp only [ScoreBreakdown.total]
    obtain ⟨hb1, hb2⟩ := hb
    obtain ⟨hf1, hf2⟩ := hf
    obtain ⟨hc1, hc2⟩ := hc
    obtain ⟨hv1, hv2⟩ := hv
    obtain ⟨hl1, hl2⟩ := hl
    obtain ⟨he1, he2⟩ := he
    obtain ⟨hr1, hr2⟩ := hr
    constructor <;> linarith

/-- C4 witness: the bounds at a concrete nonempty input, with a concrete
`log2Q` satisfying both hypotheses. -/
theorem compute_scores_bounds_witness :
    (0 ≤ (compute_scores sqrt0 log2W c5Events zeroBd 0 3).beat_sync ∧
      (compute_scores sqrt0 log2W c5Events zeroBd 0 3).beat_sync ≤ 10) ∧
    (0 ≤ (compute_scores sqrt0 log2W c5Events zeroBd 0 3).flow ∧
      (compute_scores sqrt0 log2W c5Events zeroBd 0 3).flow ≤ 10) ∧
    (0 ≤ (compute_scores sqrt0 log2W c5Events zeroBd 0 3).difficulty_curve ∧
      (compute_scores sqrt0 log2W c5Events zeroBd 0 3).difficulty_curve ≤ 10) ∧
    (0 ≤ (compute_scores sqrt0 log2W c5Events zeroBd 0 3).type_variety ∧
      (compute_scores sqrt0 log2W c5Events zeroBd 0 3).type_variety ≤ 10) ∧
    (0 ≤ (compute_scores sqrt0 log2W c5Events zeroBd 0 3).lane_coverage ∧
      (compute_scores sqrt0 log2W c5Events zeroBd 0 3).lane_coverage ≤ 10) ∧
    (0 ≤ (compute_scores sqrt0 log2W c5Events zeroBd 0 3).energy_match ∧
      (compute_scores sqrt0 log2W c5Events zeroBd 0 3).energy_match ≤ 10) ∧
    (0 ≤ (compute_scores sqrt0 log2W c5Events zeroBd 0 3).cull_rate ∧
      (compute_scores sqrt0 log2W c5Events zeroBd 0 3).cull_rate ≤ 10) ∧
    (0 ≤ (compute_scores sqrt0 log2W c5Events zeroBd 0 3).total ∧
      (compute_scores sqrt0 log2W c5Events zeroBd 0 3).total ≤ 10) :=
  compute_scores_bounds sqrt0 log2W
    (fun q _ hq1 => by
      simp only [log2W]
      rw [if_neg (by linarith)])
    (fun q hq => by simp [log2W, if_pos hq])
    c5Events zeroBd 0 3
